import Mathlib

/- Verification development for the Seaward SSS portable-appliance-test stream
decoder (portableappliancetest.py).  The decoder is shallowly embedded: byte
streams are lists of naturals, the field schemas, record codec, rescale layer,
type registries, frame reader (records_gen), sub-record walker (parse_record)
and the whole pipeline (parse_sss) are translated directly from the source.
Python exceptions are modelled with Except/Option; the process-global function
attributes (parse_record.test_id, report_record.user_notes/user_counts) are
threaded explicitly as a GState value. -/

/-- A decoded field value: raw unsigned integer, rescaled decimal, normalized
boolean, text (as its byte run after zero-stripping), the continuity
"(no result)" sentinel, or a user-data-mapping meaning string. -/
inductive Value where
  | nat (n : ℕ)
  | rat (q : ℚ)
  | bool (b : Bool)
  | str (bs : List ℕ)
  | noResult
  | meaning (s : String)
  deriving DecidableEq

/-- Primitive field kinds of the Sdb schema language (Python `int` / `str`). -/
inductive FieldType where
  | int
  | str
  deriving DecidableEq

/-- One (name, kind, byte width) entry of a field schema. -/
structure FieldSpec where
  name : String
  ftype : FieldType
  size : ℕ

/-- Errors: Python struct.error on a short header, struct.error on a short
sub-record slice, KeyError on a type-code lookup, KeyError on a user-data
mapping index, and ValueError from datetime construction. -/
inductive Err where
  | truncatedHeader
  | layoutError
  | unknownType (c : ℕ)
  | lookupError
  | valueError
  deriving DecidableEq

/-- The ordered mapping from field name to decoded value (OrderedDict). -/
abbrev Fields := List (String × Value)

/-- Big-endian unsigned integer of a byte run (struct formats B, H, L). -/
def beNat (bs : List ℕ) : ℕ := bs.foldl (fun a b => a * 256 + b) 0

/-- ASCII whitespace, as stripped by Python bytes.rstrip(). -/
def isSpaceByte (b : ℕ) : Bool :=
  b = 0x20 || b = 0x09 || b = 0x0a || b = 0x0b || b = 0x0c || b = 0x0d

/-- Text-field cleanup: drop every zero byte, then trim trailing whitespace
(`unpacked[0].replace(b'\x00', b'').rstrip()`). -/
def stripText (bs : List ℕ) : List ℕ :=
  ((bs.filter (fun b => b ≠ 0)).reverse.dropWhile isSpaceByte).reverse

/-- Decode a single field from exactly its byte run. -/
def decodeField (ft : FieldType) (bs : List ℕ) : Value :=
  match ft with
  | .int => .nat (beNat bs)
  | .str => .str (stripText bs)

/-- Decode a schema's fields in declaration order, consuming each width. -/
def decodeGo : List FieldSpec → List ℕ → Fields
  | [], _ => []
  | f :: fs, bs => (f.name, decodeField f.ftype (bs.take f.size)) :: decodeGo fs (bs.drop f.size)

/-- struct.calcsize of a schema (big-endian, no padding). -/
def schemaLength (fs : List FieldSpec) : ℕ := (fs.map (·.size)).sum

/-- Sdb.unpack's struct.unpack step: requires exactly the declared length. -/
def decodeFields (fs : List FieldSpec) (bs : List ℕ) : Except Err Fields :=
  if bs.length = schemaLength fs then .ok (decodeGo fs bs) else .error .layoutError

/-- Look a field up by name (first occurrence, as in a dict). -/
def getK (fs : Fields) (k : String) : Option Value := (fs.find? (fun kv => kv.1 = k)).map (·.2)

/-- Read a field that currently holds a raw integer. -/
def getNat (fs : Fields) (k : String) : ℕ :=
  match getK fs k with
  | some (.nat n) => n
  | _ => 0

/-- Overwrite a field in place, preserving declaration order (dict update). -/
def setK (fs : Fields) (k : String) (v : Value) : Fields :=
  fs.map (fun kv => if kv.1 = k then (k, v) else kv)

/-- SSS.rescale: `(10 ** -(v >> 14)) * (v & 0x3fff)`, in exact arithmetic. -/
def rescaleQ (n : ℕ) : ℚ :=
  (10 : ℚ) ^ (-((n >>> 14 : ℕ) : ℤ)) * ((n &&& 0x3fff : ℕ) : ℚ)

/-- SSS.rescale applied to a named field. -/
def rescaleField (fs : Fields) (k : String) : Fields :=
  setK fs k (.rat (rescaleQ (getNat fs k)))

/-- SSS.passed: `self.data[key] = bool(self.data[key] == 1)`. -/
def passedField (fs : Fields) (k : String) : Fields :=
  setK fs k (.bool (getNat fs k == 1))

/-- The continuity-test zero sentinel: a rescaled resistance of exactly zero
is replaced by the symbolic "(no result)" value. -/
def continuitySentinel (fs : Fields) : Fields :=
  match getK fs "resistance" with
  | some (.rat q) => if q = 0 then setK fs "resistance" .noResult else fs
  | _ => fs

/-- One SSS sub-record class: its field schema and its post-decode fixup. -/
structure TestClass where
  fields : List FieldSpec
  fixup : Fields → Except Err Fields

/-- `__len__` of a test class: its schema's required length. -/
def requiredLength (tc : TestClass) : ℕ := schemaLength tc.fields

/-- Sdb/SSS unpack: struct-decode the slice, then run the class fixup. -/
def unpack (tc : TestClass) (bs : List ℕ) : Except Err Fields :=
  decodeFields tc.fields bs >>= tc.fixup

def SSSVisualTest : TestClass :=
  ⟨[⟨"id", .str, 16⟩, ⟨"hour", .int, 1⟩, ⟨"minute", .int, 1⟩, ⟨"day", .int, 1⟩,
    ⟨"month", .int, 1⟩, ⟨"year", .int, 2⟩, ⟨"site", .str, 16⟩, ⟨"location", .str, 16⟩,
    ⟨"tester", .str, 11⟩, ⟨"testcode1", .str, 10⟩, ⟨"testcode2", .str, 11⟩], .ok⟩

def SSSNoDataTest : TestClass := ⟨[], .ok⟩

def SSSEarthResistanceTest : TestClass :=
  ⟨[⟨"resistance", .int, 2⟩], fun fs => .ok (rescaleField fs "resistance")⟩

def SSSEarthResistanceTestv2 : TestClass :=
  ⟨[⟨"current", .int, 1⟩, ⟨"pass", .int, 1⟩, ⟨"resistance", .int, 2⟩],
   fun fs => .ok (passedField (rescaleField fs "resistance") "pass")⟩

def SSSEarthInsulationTest : TestClass :=
  ⟨[⟨"resistance", .int, 2⟩], fun fs => .ok (rescaleField fs "resistance")⟩

def SSSCurrentTest : TestClass :=
  ⟨[⟨"current", .int, 2⟩], fun fs => .ok (rescaleField fs "current")⟩

def SSSCurrentTestv2 : TestClass :=
  ⟨[⟨"pass", .int, 1⟩, ⟨"current", .int, 2⟩],
   fun fs => .ok (passedField (rescaleField fs "current") "pass")⟩

def SSSEarthInsulationTestv2 : TestClass :=
  ⟨[⟨"pass", .int, 1⟩, ⟨"resistance", .int, 2⟩],
   fun fs => .ok (passedField (rescaleField fs "resistance") "pass")⟩

def SSSPowerLeakTest : TestClass :=
  ⟨[⟨"leakage", .int, 2⟩, ⟨"load", .int, 2⟩],
   fun fs => .ok (rescaleField (rescaleField fs "leakage") "load")⟩

def SSSPowerLeakTestv2 : TestClass :=
  ⟨[⟨"pass", .int, 1⟩, ⟨"leakage", .int, 2⟩, ⟨"load", .int, 2⟩],
   fun fs => .ok (rescaleField (rescaleField
     (setK fs "pass" (.bool (decide (getNat fs "pass" ≠ 0)))) "leakage") "load")⟩

def SSSContinuityTest : TestClass :=
  ⟨[⟨"resistance", .int, 2⟩],
   fun fs => .ok (continuitySentinel (rescaleField fs "resistance"))⟩

def SSSContinuityTestv2 : TestClass :=
  ⟨[⟨"pass", .int, 1⟩, ⟨"resistance", .int, 2⟩],
   fun fs => .ok (continuitySentinel (passedField (rescaleField fs "resistance") "pass"))⟩

/-- The fixed user-data-mapping table; indices outside 0-5 raise KeyError. -/
def sss_mappings (n : ℕ) : Option String :=
  ["Notes", "Asset Description", "Asset Group", "Make", "Model", "Serial No."].get? n

/-- One step of SSSUserDataMappingTest.fixup: append `meaning<i>` for the raw
index stored in `mapping<i>`, or fail like a dictionary KeyError. -/
def addMeaning (i : String) (fs : Fields) : Except Err Fields :=
  match getK fs ("mapping" ++ i) with
  | some (.nat v) =>
      match sss_mappings v with
      | some s => .ok (fs ++ [("meaning" ++ i, .meaning s)])
      | none => .error .lookupError
  | _ => .error .lookupError

def SSSUserDataMappingTest : TestClass :=
  ⟨[⟨"mapping1", .int, 1⟩, ⟨"mapping2", .int, 1⟩, ⟨"mapping3", .int, 1⟩, ⟨"mapping4", .int, 1⟩],
   fun fs => addMeaning "1" fs >>= addMeaning "2" >>= addMeaning "3" >>= addMeaning "4"⟩

def SSSRetestTest : TestClass :=
  ⟨[⟨"nulls", .int, 1⟩, ⟨"unknown", .int, 1⟩, ⟨"frequency", .int, 1⟩], .ok⟩

def SSSSoftwareVersionTest : TestClass :=
  ⟨[⟨"serialnumber", .str, 11⟩, ⟨"firmware1", .int, 1⟩, ⟨"firmware2", .int, 1⟩,
    ⟨"firmware3", .int, 1⟩], .ok⟩

def SSSUserDataTest : TestClass :=
  ⟨[⟨"line1", .str, 21⟩, ⟨"line2", .str, 21⟩, ⟨"line3", .str, 21⟩, ⟨"line4", .str, 21⟩], .ok⟩

/-- The version-1 type registry. -/
def TESTS_VERSION_1 (c : ℕ) : Option (String × TestClass) :=
  if c = 0x01 then some ("Visual Pass (01)", SSSVisualTest)
  else if c = 0x02 then some ("Visual Fail (02)", SSSVisualTest)
  else if c = 0x10 then some ("Unknown (10)", SSSNoDataTest)
  else if c = 0xe0 then some ("User Data Mapping (E0)", SSSUserDataMappingTest)
  else if c = 0xe1 then some ("Retest (E1)", SSSRetestTest)
  else if c = 0xf0 then some ("Overall Pass (F0)", SSSNoDataTest)
  else if c = 0xf1 then some ("Overall Fail (F1)", SSSNoDataTest)
  else if c = 0xf2 then some ("Earth Resistance (F2)", SSSEarthResistanceTest)
  else if c = 0xf3 then some ("Earth Insulation (F3)", SSSEarthInsulationTest)
  else if c = 0xf4 then some ("Substitute Leakage (F4)", SSSCurrentTest)
  else if c = 0xf5 then some ("Flash Leakage (F5)", SSSCurrentTest)
  else if c = 0xf6 then some ("Load/Leakage (F6)", SSSPowerLeakTest)
  else if c = 0xf7 then some ("Flash Leakage (F5)", SSSCurrentTest)
  else if c = 0xf8 then some ("Continuity (F8)", SSSContinuityTest)
  else if c = 0xfa then some ("Unknown (FA)", SSSNoDataTest)
  else if c = 0xfb then some ("User data (FB)", SSSUserDataTest)
  else if c = 0xfe then some ("Software Version (FE)", SSSSoftwareVersionTest)
  else if c = 0xff then some ("End of Record (FF)", SSSNoDataTest)
  else none

/-- The version-2 additions and overrides. -/
def TESTS_VERSION_2 (c : ℕ) : Option (String × TestClass) :=
  if c = 0x11 then some ("Visual Pass v2 (11)", SSSVisualTest)
  else if c = 0x12 then some ("Visual Fail v2 (12)", SSSVisualTest)
  else if c = 0xf2 then some ("Earth Resistance v2 (F2)", SSSEarthResistanceTestv2)
  else if c = 0xf3 then some ("Earth Insulation v2 (F3)", SSSEarthInsulationTestv2)
  else if c = 0xf4 then some ("Substitute Leakage v2 (F4)", SSSCurrentTestv2)
  else if c = 0xf5 then some ("Flash Leakage v2 (F5)", SSSCurrentTestv2)
  else if c = 0xf6 then some ("Load/Leakage v2 (F6)", SSSPowerLeakTestv2)
  else if c = 0xf7 then some ("Flash Leakage v2 (F7)", SSSCurrentTestv2)
  else if c = 0xf8 then some ("Continuity v2 (F8)", SSSContinuityTestv2)
  else if c = 0xf9 then some ("Lead Continuity Pass (F9)", SSSNoDataTest)
  else none

/-- `tests.update(TESTS_VERSION_2)`: version-2 entries override version-1. -/
def updateV2 (tests : ℕ → Option (String × TestClass)) : ℕ → Option (String × TestClass) :=
  fun c =>
    match TESTS_VERSION_2 c with
    | some e => some e
    | none => tests c

/-- The merged version-2 table. -/
def mergedTests : ℕ → Option (String × TestClass) := updateV2 TESTS_VERSION_1

/-- The process-global mutable state of the reporting pipeline: the function
attributes parse_record.test_id, report_record.user_notes and
report_record.user_counts, initialized once at module import. -/
structure GState where
  testId : ℕ
  userNotes : List ℕ
  userCounts : List ℕ
  deriving DecidableEq

/-- The state at interpreter start: test_id=1, user_notes=(0,1,2,3),
user_counts=[0,0,0,0,0,0]. -/
def initState : GState := ⟨1, [0, 1, 2, 3], [0, 0, 0, 0, 0, 0]⟩

/-- One Parsed Output Row: record id, optional test id, type code, registry
label, and the decoded field mapping. -/
structure Row where
  recordId : ℕ
  testId : Option ℕ
  testType : ℕ
  label : String
  data : Fields
  deriving DecidableEq

/-- Python's proleptic-Gregorian leap-year rule. -/
def isLeapYear (y : ℕ) : Bool := y % 4 = 0 && (y % 100 ≠ 0 || y % 400 = 0)

def daysInMonth (y m : ℕ) : ℕ :=
  if m = 2 then (if isLeapYear y then 29 else 28)
  else if m = 4 ∨ m = 6 ∨ m = 9 ∨ m = 11 then 30
  else 31

/-- The argument checks of datetime.datetime(year, month, day, hour, minute);
a violation raises ValueError. -/
def dateValid (y mo d h mi : ℕ) : Bool :=
  decide (1 ≤ y ∧ y ≤ 9999 ∧ 1 ≤ mo ∧ mo ≤ 12 ∧ 1 ≤ d ∧ d ≤ daysInMonth y mo ∧
          h ≤ 23 ∧ mi ≤ 59)

/-- user_counts[target] += 1. -/
def bumpAt (l : List ℕ) (i : ℕ) : List ℕ := l.set i (l.getD i 0 + 1)

/-- The 0xFB branch of report_record: for each nonempty user-data line,
bump the count of the sheet selected by user_notes. -/
def fbCounts (notes counts : List ℕ) (fs : Fields) : List ℕ :=
  (List.range 4).foldl
    (fun cs i =>
      match getK fs ("line" ++ toString (i + 1)) with
      | some (.str bs) => if bs = [] then cs else bumpAt cs (notes.getD i 0)
      | _ => cs)
    counts

/-- report_record: dispatch a decoded sub-record to the output, returning the
written row (if any) and the updated global state; the test-id counter
advances exactly when tests_written = 1 (types 0x10 and 0xF0-0xFA).  The
visual branch can raise ValueError from datetime construction. -/
def report_record (recordId : ℕ) (label : String) (t : ℕ) (fs : Fields) (st : GState) :
    Except Err (Option Row × GState) :=
  if t = 0x01 ∨ t = 0x02 ∨ t = 0x11 ∨ t = 0x12 ∨ t = 0xfe ∨ t = 0xe0 ∨ t = 0xe1 then
    if t = 0xfe then .ok (some ⟨recordId, none, t, label, fs⟩, st)
    else if t = 0xe0 then
      .ok (some ⟨recordId, none, t, label, fs⟩,
        { st with userNotes := [getNat fs "mapping1", getNat fs "mapping2",
                                getNat fs "mapping3", getNat fs "mapping4"] })
    else if t = 0xe1 then .ok (some ⟨recordId, none, t, label, fs⟩, st)
    else
      if dateValid (getNat fs "year") (getNat fs "month") (getNat fs "day")
          (getNat fs "hour") (getNat fs "minute") then
        .ok (some ⟨recordId, none, t, label, fs⟩, st)
      else .error .valueError
  else if (0xf0 ≤ t ∧ t < 0xfb) ∨ t = 0x10 then
    .ok (some ⟨recordId, some st.testId, t, label, fs⟩, { st with testId := st.testId + 1 })
  else if t = 0xfb then
    .ok (some ⟨recordId, none, t, label, fs⟩,
      { st with userCounts := fbCounts st.userNotes st.userCounts fs })
  else .ok (none, st)

/-- The sub-record walker loop of parse_record; `tests`/`version` are the
local registry and version flag, rebuilt afresh on each call of parse_record.
Any exception (KeyError on the registry, struct.error on a short slice,
KeyError in a fixup, ValueError in report_record) aborts the loop and
propagates. -/
def parse_record_go (tests : ℕ → Option (String × TestClass)) (version : ℕ) (recordId : ℕ)
    (st : GState) (payload : List ℕ) : List Row × GState × Option Err :=
  match payload with
  | [] => ([], st, none)
  | t :: rest =>
    let tv : (ℕ → Option (String × TestClass)) × ℕ :=
      if version = 1 ∧ (t = 0x11 ∨ t = 0x12) then (updateV2 tests, 2) else (tests, version)
    match tv.1 t with
    | none => ([], st, some (.unknownType t))
    | some lt =>
      match unpack lt.2 (rest.take (requiredLength lt.2)) with
      | .error e => ([], st, some e)
      | .ok fs =>
        match report_record recordId lt.1 t fs st with
        | .error e => ([], st, some e)
        | .ok ost =>
          if t = 0xff then (ost.1.toList, ost.2, none)
          else
            let res := parse_record_go tv.1 tv.2 recordId ost.2 (rest.drop (requiredLength lt.2))
            (ost.1.toList ++ res.1, res.2.1, res.2.2)
termination_by payload.length
decreasing_by simp [List.length_drop]; omega

/-- parse_record: the walker starts every record from the version-1 table. -/
def parse_record (recordId : ℕ) (st : GState) (payload : List ℕ) :
    List Row × GState × Option Err :=
  parse_record_go TESTS_VERSION_1 1 recordId st payload

/-- records_gen: the frame reader.  Returns the validated payloads emitted
before termination, together with the abnormal-termination error, if any
(struct.error when 1-5 bytes remain at a header boundary). -/
def records_gen : List ℕ → List (List ℕ) × Option Err
  | [] => ([], none)
  | b0 :: b1 :: _b2 :: _b3 :: b4 :: b5 :: rest =>
      let L := b0 * 256 + b1
      if L = 0 then records_gen rest
      else
        let payload := rest.take L
        let next := records_gen (rest.drop L)
        if payload.sum &&& 0xffff = b4 * 256 + b5 then (payload :: next.1, next.2)
        else next
  | _ => ([], some .truncatedHeader)
termination_by l => l.length
decreasing_by all_goals simp [List.length_drop]; omega

/-- The record loop of parse_sss: record_id starts at 1 and advances once per
validated payload; a walker exception stops the whole stream (it propagates
uncaught), and a frame-reader exception surfaces after the payloads emitted
before it were processed. -/
def parse_sss_go (recordId : ℕ) (st : GState) (fe : Option Err) :
    List (List ℕ) → List Row × GState × Option Err
  | [] => ([], st, fe)
  | p :: ps =>
    let w := parse_record recordId st p
    match w.2.2 with
    | some e => (w.1, w.2.1, some e)
    | none =>
      let res := parse_sss_go (recordId + 1) w.2.1 fe ps
      (w.1 ++ res.1, res.2.1, res.2.2)

/-- parse_sss: the whole decoding pipeline on one byte stream, from a given
global state (initState at interpreter start). -/
def parse_sss (st : GState) (stream : List ℕ) : List Row × GState × Option Err :=
  parse_sss_go 1 st (records_gen stream).2 (records_gen stream).1

/- Helper lemmas: frame-reader and walker evaluation on concrete data. -/

lemma records_gen_nil : records_gen [] = ([], none) := by simp [records_gen]

lemma records_gen_emit (b0 b1 b2 b3 b4 b5 : ℕ) (p rest : List ℕ)
    (hL : b0 * 256 + b1 = p.length) (h0 : p.length ≠ 0)
    (hc : p.sum &&& 0xffff = b4 * 256 + b5) :
    records_gen (b0 :: b1 :: b2 :: b3 :: b4 :: b5 :: (p ++ rest)) =
      ((p :: (records_gen rest).1, (records_gen rest).2)) := by
  rw [records_gen.eq_def]
  simp only [hL]
  rw [if_neg h0, List.take_left' rfl, List.drop_left' rfl, if_pos hc]

lemma walker_ff (tests : ℕ → Option (String × TestClass)) (ver rid : ℕ) (st : GState)
    (h : tests 0xff = some ("End of Record (FF)", SSSNoDataTest)) :
    parse_record_go tests ver rid st [0xff] = ([], st, none) := by
  rw [parse_record_go.eq_def]
  simp [h, unpack, decodeFields, decodeGo, requiredLength, schemaLength, SSSNoDataTest,
        report_record, Bind.bind, Except.bind]

/-- The body of the version-2 visual sub-record used in concrete streams:
empty id, 10:30 on 2019-06-05, empty site/location/tester/testcodes. -/
def visualBody : List ℕ := List.replicate 16 0 ++ [10, 30, 5, 6, 7, 227] ++ List.replicate 64 0

/-- The decoded field mapping of `visualBody`. -/
def visualFields : Fields :=
  [("id", .str []), ("hour", .nat 10), ("minute", .nat 30), ("day", .nat 5),
   ("month", .nat 6), ("year", .nat 2019), ("site", .str []), ("location", .str []),
   ("tester", .str []), ("testcode1", .str []), ("testcode2", .str []) ]

lemma unpack_visualBody : unpack SSSVisualTest visualBody = .ok visualFields := rfl

lemma take_payloadA : (visualBody ++ [0xff]).take 86 = visualBody := by decide

lemma drop_payloadA : (visualBody ++ [0xff]).drop 86 = [0xff] := by decide

lemma req_visual : requiredLength SSSVisualTest = 86 := rfl

lemma report_visual (rid : ℕ) (st : GState) :
    report_record rid "Visual Pass v2 (11)" 0x11 visualFields st =
      .ok (some ⟨rid, none, 0x11, "Visual Pass v2 (11)", visualFields⟩, st) := by
  simp [report_record]
  decide

/-- A record whose payload is a v2 visual-pass sub-record then the sentinel:
it decodes cleanly and upgrades the (record-local) table to version 2. -/
lemma walker_payloadA (rid : ℕ) (st : GState) :
    parse_record rid st (0x11 :: (visualBody ++ [0xff])) =
      ([⟨rid, none, 0x11, "Visual Pass v2 (11)", visualFields⟩], st, none) := by
  rw [parse_record, parse_record_go.eq_def]
  norm_num
  simp only [show updateV2 TESTS_VERSION_1 0x11 = some ("Visual Pass v2 (11)", SSSVisualTest)
               from rfl,
             req_visual, take_payloadA, drop_payloadA, unpack_visualBody, report_visual]
  rw [walker_ff _ _ _ _ (show updateV2 TESTS_VERSION_1 0xff =
        some ("End of Record (FF)", SSSNoDataTest) from rfl)]
  simp

lemma rescale_4064 : rescaleQ 0x4064 = 10 := by
  rw [rescaleQ]
  norm_num [show (16484 : ℕ) >>> 14 = 1 by decide, show (16484 : ℕ) &&& 0x3fff = 100 by decide]

/-- A record holding one earth-resistance sub-record (raw 0x4064) and the
sentinel, decoded from a fresh record: the version-1 schema applies. -/
lemma walker_payloadB (rid : ℕ) (st : GState) :
    parse_record rid st [0xf2, 0x40, 0x64, 0xff] =
      ([⟨rid, some st.testId, 0xf2, "Earth Resistance (F2)", [("resistance", .rat 10)]⟩],
       { st with testId := st.testId + 1 }, none) := by
  rw [parse_record, parse_record_go.eq_def]
  norm_num
  simp only [show TESTS_VERSION_1 0xf2 = some ("Earth Resistance (F2)", SSSEarthResistanceTest)
               from rfl]
  simp only [show requiredLength SSSEarthResistanceTest = 2 from rfl]
  norm_num [unpack, decodeFields, decodeGo, Bind.bind, Except.bind, SSSEarthResistanceTest,
            decodeField, schemaLength, rescaleField, beNat, getNat, getK, setK, rescale_4064,
            report_record]
  rw [walker_ff _ _ _ _ (show TESTS_VERSION_1 0xff =
        some ("End of Record (FF)", SSSNoDataTest) from rfl)]
  simp

/-- A record holding one overall-pass (0xF0, no data) sub-record. -/
lemma walker_payloadF0 (rid : ℕ) (st : GState) :
    parse_record rid st [0xf0, 0xff] =
      ([⟨rid, some st.testId, 0xf0, "Overall Pass (F0)", []⟩],
       { st with testId := st.testId + 1 }, none) := by
  simp [parse_record, parse_record_go, TESTS_VERSION_1, requiredLength, schemaLength,
        SSSNoDataTest, unpack, decodeFields, decodeGo, report_record, Bind.bind, Except.bind]

/-- Record payload: v2 visual-pass sub-record, then the end sentinel. -/
def payloadA : List ℕ := 0x11 :: (visualBody ++ [0xff])

/-- Record payload: one v1-coded earth-resistance sub-record, then sentinel. -/
def payloadB : List ℕ := [0xf2, 0x40, 0x64, 0xff]

/-- Two-record stream: a record containing a version-2 marker (0x11), then a
separate record containing an earth-resistance (0xF2) sub-record. -/
def streamC1 : List ℕ :=
  0 :: 88 :: 0 :: 0 :: 2 :: 45 :: (payloadA ++ (0 :: 4 :: 0 :: 0 :: 2 :: 149 :: (payloadB ++ [])))

lemma records_gen_streamC1 : records_gen streamC1 = ([payloadA, payloadB], none) := by
  rw [streamC1, records_gen_emit _ _ _ _ _ _ _ _ (by decide) (by decide) (by decide),
      records_gen_emit _ _ _ _ _ _ _ _ (by decide) (by decide) (by decide), records_gen_nil]

lemma parse_sss_streamC1 :
    parse_sss initState streamC1 =
      ([⟨1, none, 0x11, "Visual Pass v2 (11)", visualFields⟩,
        ⟨2, some 1, 0xf2, "Earth Resistance (F2)", [("resistance", .rat 10)]⟩],
       ⟨2, [0, 1, 2, 3], [0, 0, 0, 0, 0, 0]⟩, none) := by
  rw [parse_sss, records_gen_streamC1]
  simp [parse_sss_go, payloadA, payloadB, walker_payloadA, walker_payloadB, initState]

/-- One-record stream holding a single overall-pass (0xF0) sub-record. -/
def streamS0 : List ℕ := 0 :: 2 :: 0 :: 0 :: 1 :: 239 :: ([0xf0, 0xff] ++ [])

lemma records_gen_streamS0 : records_gen streamS0 = ([[0xf0, 0xff]], none) := by
  rw [streamS0, records_gen_emit _ _ _ _ _ _ _ _ (by decide) (by decide) (by decide),
      records_gen_nil]

lemma parse_sss_streamS0 (st : GState) :
    parse_sss st streamS0 =
      ([⟨1, some st.testId, 0xf0, "Overall Pass (F0)", []⟩],
       { st with testId := st.testId + 1 }, none) := by
  rw [parse_sss, records_gen_streamS0]
  simp [parse_sss_go, walker_payloadF0]

/-- A record whose first sub-record code (0x03) is absent from every table. -/
lemma walker_payloadU (rid : ℕ) (st : GState) :
    parse_record rid st [0x03, 0xff] = ([], st, some (.unknownType 3)) := by
  rw [parse_record, parse_record_go.eq_def]
  norm_num
  simp [show TESTS_VERSION_1 3 = none from rfl]

/-- Two-record stream: a record with an unknown type code, then a perfectly
valid record with an overall-pass sub-record. -/
def streamC6 : List ℕ :=
  0 :: 2 :: 0 :: 0 :: 1 :: 2 :: ([0x03, 0xff] ++
    (0 :: 2 :: 0 :: 0 :: 1 :: 239 :: ([0xf0, 0xff] ++ [])))

lemma records_gen_streamC6 : records_gen streamC6 = ([[0x03, 0xff], [0xf0, 0xff]], none) := by
  rw [streamC6, records_gen_emit _ _ _ _ _ _ _ _ (by decide) (by decide) (by decide),
      records_gen_emit _ _ _ _ _ _ _ _ (by decide) (by decide) (by decide), records_gen_nil]

lemma parse_sss_streamC6 :
    parse_sss initState streamC6 = ([], initState, some (.unknownType 3)) := by
  rw [parse_sss, records_gen_streamC6]
  simp [parse_sss_go, walker_payloadU]

/- Helper lemmas: small arithmetic facts and symbolic unpack evaluations. -/

lemma mask16 (n : ℕ) : n &&& 0xffff = n % 65536 := by
  rw [show (0xffff : ℕ) = 2 ^ 16 - 1 by norm_num, Nat.and_pow_two_sub_one_eq_mod]

lemma beNat_singleton (a : ℕ) : beNat [a] = a := by
  rw [beNat]
  simp

lemma continuitySentinel_single (q : ℚ) :
    continuitySentinel [("resistance", .rat q)] =
      [("resistance", if q = 0 then Value.noResult else .rat q)] := by
  rw [continuitySentinel]
  simp [getK, setK]
  split <;> simp

lemma continuitySentinel_pair (b : Bool) (q : ℚ) :
    continuitySentinel [("pass", .bool b), ("resistance", .rat q)] =
      [("pass", .bool b), ("resistance", if q = 0 then Value.noResult else .rat q)] := by
  rw [continuitySentinel]
  simp [getK, setK]
  split <;> simp

lemma unpack_SSSContinuityTest (b0 b1 : ℕ) :
    unpack SSSContinuityTest [b0, b1] =
      .ok [("resistance",
        if rescaleQ (beNat [b0, b1]) = 0 then Value.noResult
        else .rat (rescaleQ (beNat [b0, b1])))] := by
  show (decodeFields _ _ >>= _) = _
  rw [show decodeFields SSSContinuityTest.fields [b0, b1] =
        .ok [("resistance", .nat (beNat [b0, b1]))] by
      simp [decodeFields, SSSContinuityTest, schemaLength, decodeGo, decodeField]]
  show Except.ok (continuitySentinel (rescaleField
        [("resistance", .nat (beNat [b0, b1]))] "resistance")) = _
  rw [show rescaleField [("resistance", Value.nat (beNat [b0, b1]))] "resistance" =
        [("resistance", .rat (rescaleQ (beNat [b0, b1])))] by
      simp [rescaleField, setK, getNat, getK]]
  rw [continuitySentinel_single]

lemma unpack_SSSContinuityTestv2 (p b0 b1 : ℕ) :
    unpack SSSContinuityTestv2 [p, b0, b1] =
      .ok [("pass", .bool (p == 1)),
           ("resistance",
            if rescaleQ (beNat [b0, b1]) = 0 then Value.noResult
            else .rat (rescaleQ (beNat [b0, b1])))] := by
  show (decodeFields _ _ >>= _) = _
  rw [show decodeFields SSSContinuityTestv2.fields [p, b0, b1] =
        .ok [("pass", .nat (beNat [p])), ("resistance", .nat (beNat [b0, b1]))] by
      simp [decodeFields, SSSContinuityTestv2, schemaLength, decodeGo, decodeField]]
  show Except.ok (continuitySentinel (passedField (rescaleField
        [("pass", .nat (beNat [p])), ("resistance", .nat (beNat [b0, b1]))]
        "resistance") "pass")) = _
  rw [show rescaleField [("pass", Value.nat (beNat [p])),
        ("resistance", Value.nat (beNat [b0, b1]))] "resistance" =
        [("pass", .nat (beNat [p])), ("resistance", .rat (rescaleQ (beNat [b0, b1])))] by
      simp [rescaleField, setK, getNat, getK]]
  rw [show passedField [("pass", Value.nat (beNat [p])),
        ("resistance", Value.rat (rescaleQ (beNat [b0, b1])))] "pass" =
        [("pass", .bool (beNat [p] == 1)), ("resistance", .rat (rescaleQ (beNat [b0, b1])))] by
      simp [passedField, setK, getNat, getK]]
  rw [continuitySentinel_pair, beNat_singleton]

lemma unpack_SSSEarthResistanceTestv2 (c p b0 b1 : ℕ) :
    unpack SSSEarthResistanceTestv2 [c, p, b0, b1] =
      .ok [("current", .nat c), ("pass", .bool (p == 1)),
           ("resistance", .rat (rescaleQ (beNat [b0, b1])))] := by
  show (decodeFields _ _ >>= _) = _
  rw [show decodeFields SSSEarthResistanceTestv2.fields [c, p, b0, b1] =
        .ok [("current", .nat (beNat [c])), ("pass", .nat (beNat [p])),
             ("resistance", .nat (beNat [b0, b1]))] by
      simp [decodeFields, SSSEarthResistanceTestv2, schemaLength, decodeGo, decodeField]]
  show Except.ok (passedField (rescaleField
        [("current", .nat (beNat [c])), ("pass", .nat (beNat [p])),
         ("resistance", .nat (beNat [b0, b1]))] "resistance") "pass") = _
  rw [show rescaleField [("current", Value.nat (beNat [c])), ("pass", Value.nat (beNat [p])),
        ("resistance", Value.nat (beNat [b0, b1]))] "resistance" =
        [("current", .nat (beNat [c])), ("pass", .nat (beNat [p])),
         ("resistance", .rat (rescaleQ (beNat [b0, b1])))] by
      simp [rescaleField, setK, getNat, getK]]
  rw [show passedField [("current", Value.nat (beNat [c])), ("pass", Value.nat (beNat [p])),
        ("resistance", Value.rat (rescaleQ (beNat [b0, b1])))] "pass" =
        [("current", .nat (beNat [c])), ("pass", .bool (beNat [p] == 1)),
         ("resistance", .rat (rescaleQ (beNat [b0, b1])))] by
      simp [passedField, setK, getNat, getK]]
  rw [beNat_singleton, beNat_singleton]

lemma unpack_SSSCurrentTestv2 (p b0 b1 : ℕ) :
    unpack SSSCurrentTestv2 [p, b0, b1] =
      .ok [("pass", .bool (p == 1)), ("current", .rat (rescaleQ (beNat [b0, b1])))] := by
  show (decodeFields _ _ >>= _) = _
  rw [show decodeFields SSSCurrentTestv2.fields [p, b0, b1] =
        .ok [("pass", .nat (beNat [p])), ("current", .nat (beNat [b0, b1]))] by
      simp [decodeFields, SSSCurrentTestv2, schemaLength, decodeGo, decodeField]]
  show Except.ok (passedField (rescaleField
        [("pass", .nat (beNat [p])), ("current", .nat (beNat [b0, b1]))] "current") "pass") = _
  rw [show rescaleField [("pass", Value.nat (beNat [p])),
        ("current", Value.nat (beNat [b0, b1]))] "current" =
        [("pass", .nat (beNat [p])), ("current", .rat (rescaleQ (beNat [b0, b1])))] by
      simp [rescaleField, setK, getNat, getK]]
  rw [show passedField [("pass", Value.nat (beNat [p])),
        ("current", Value.rat (rescaleQ (beNat [b0, b1])))] "pass" =
        [("pass", .bool (beNat [p] == 1)), ("current", .rat (rescaleQ (beNat [b0, b1])))] by
      simp [passedField, setK, getNat, getK]]
  rw [beNat_singleton]

lemma unpack_SSSEarthInsulationTestv2 (p b0 b1 : ℕ) :
    unpack SSSEarthInsulationTestv2 [p, b0, b1] =
      .ok [("pass", .bool (p == 1)), ("resistance", .rat (rescaleQ (beNat [b0, b1])))] := by
  show (decodeFields _ _ >>= _) = _
  rw [show decodeFields SSSEarthInsulationTestv2.fields [p, b0, b1] =
        .ok [("pass", .nat (beNat [p])), ("resistance", .nat (beNat [b0, b1]))] by
      simp [decodeFields, SSSEarthInsulationTestv2, schemaLength, decodeGo, decodeField]]
  show Except.ok (passedField (rescaleField
        [("pass", .nat (beNat [p])), ("resistance", .nat (beNat [b0, b1]))]
        "resistance") "pass") = _
  rw [show rescaleField [("pass", Value.nat (beNat [p])),
        ("resistance", Value.nat (beNat [b0, b1]))] "resistance" =
        [("pass", .nat (beNat [p])), ("resistance", .rat (rescaleQ (beNat [b0, b1])))] by
      simp [rescaleField, setK, getNat, getK]]
  rw [show passedField [("pass", Value.nat (beNat [p])),
        ("resistance", Value.rat (rescaleQ (beNat [b0, b1])))] "pass" =
        [("pass", .bool (beNat [p] == 1)), ("resistance", .rat (rescaleQ (beNat [b0, b1])))] by
      simp [passedField, setK, getNat, getK]]
  rw [beNat_singleton]

lemma unpack_SSSPowerLeakTestv2 (p l0 l1 d0 d1 : ℕ) :
    unpack SSSPowerLeakTestv2 [p, l0, l1, d0, d1] =
      .ok [("pass", .bool (decide (p ≠ 0))), ("leakage", .rat (rescaleQ (beNat [l0, l1]))),
           ("load", .rat (rescaleQ (beNat [d0, d1])))] := by
  show (decodeFields _ _ >>= _) = _
  rw [show decodeFields SSSPowerLeakTestv2.fields [p, l0, l1, d0, d1] =
        .ok [("pass", .nat (beNat [p])), ("leakage", .nat (beNat [l0, l1])),
             ("load", .nat (beNat [d0, d1]))] by
      simp [decodeFields, SSSPowerLeakTestv2, schemaLength, decodeGo, decodeField]]
  show Except.ok (rescaleField (rescaleField
        (setK [("pass", .nat (beNat [p])), ("leakage", .nat (beNat [l0, l1])),
               ("load", .nat (beNat [d0, d1]))] "pass"
          (.bool (decide (getNat [("pass", .nat (beNat [p])), ("leakage", .nat (beNat [l0, l1])),
               ("load", .nat (beNat [d0, d1]))] "pass" ≠ 0)))) "leakage") "load") = _
  rw [show getNat [("pass", Value.nat (beNat [p])), ("leakage", Value.nat (beNat [l0, l1])),
        ("load", Value.nat (beNat [d0, d1]))] "pass" = beNat [p] by simp [getNat, getK]]
  rw [show setK [("pass", Value.nat (beNat [p])), ("leakage", Value.nat (beNat [l0, l1])),
        ("load", Value.nat (beNat [d0, d1]))] "pass" (.bool (decide (beNat [p] ≠ 0))) =
        [("pass", .bool (decide (beNat [p] ≠ 0))), ("leakage", .nat (beNat [l0, l1])),
         ("load", .nat (beNat [d0, d1]))] by simp [setK]]
  rw [show rescaleField [("pass", Value.bool (decide (beNat [p] ≠ 0))),
        ("leakage", Value.nat (beNat [l0, l1])), ("load", Value.nat (beNat [d0, d1]))]
        "leakage" =
        [("pass", .bool (decide (beNat [p] ≠ 0))), ("leakage", .rat (rescaleQ (beNat [l0, l1]))),
         ("load", .nat (beNat [d0, d1]))] by simp [rescaleField, setK, getNat, getK]]
  rw [show rescaleField [("pass", Value.bool (decide (beNat [p] ≠ 0))),
        ("leakage", Value.rat (rescaleQ (beNat [l0, l1]))), ("load", Value.nat (beNat [d0, d1]))]
        "load" =
        [("pass", .bool (decide (beNat [p] ≠ 0))), ("leakage", .rat (rescaleQ (beNat [l0, l1]))),
         ("load", .rat (rescaleQ (beNat [d0, d1])))] by simp [rescaleField, setK, getNat, getK]]
  rw [beNat_singleton]

lemma rescale_8064 : rescaleQ 0x8064 = 1 := by
  rw [rescaleQ]
  norm_num [show (0x8064 : ℕ) >>> 14 = 2 by decide, show (0x8064 : ℕ) &&& 0x3fff = 100 by decide]

lemma rescale_0064 : rescaleQ 0x64 = 100 := by
  rw [rescaleQ]
  norm_num [show (0x64 : ℕ) >>> 14 = 0 by decide, show (0x64 : ℕ) &&& 0x3fff = 100 by decide]

lemma unpack_SSSEarthResistanceTest (b0 b1 : ℕ) :
    unpack SSSEarthResistanceTest [b0, b1] =
      .ok [("resistance", .rat (rescaleQ (beNat [b0, b1])))] := by
  show (decodeFields _ _ >>= _) = _
  rw [show decodeFields SSSEarthResistanceTest.fields [b0, b1] =
        .ok [("resistance", .nat (beNat [b0, b1]))] by
      simp [decodeFields, SSSEarthResistanceTest, schemaLength, decodeGo, decodeField]]
  show Except.ok (rescaleField [("resistance", .nat (beNat [b0, b1]))] "resistance") = _
  rw [show rescaleField [("resistance", Value.nat (beNat [b0, b1]))] "resistance" =
        [("resistance", .rat (rescaleQ (beNat [b0, b1])))] by
      simp [rescaleField, setK, getNat, getK]]

/-- C3 (code_bug): at a record boundary, a remainder of exactly 0 bytes makes
the frame reader terminate cleanly with no rows and no error, but a remainder
of 1-5 bytes (here the 3-byte tail 00 2B 00) makes `filehandle.read(6)`
return a short buffer that passes the `if not header` test and is handed to
struct.unpack, which raises struct.error — not the clean EndOfStream that the
specification describes for every remainder below 6. -/
theorem C3_truncated_header :
    records_gen [] = ([], none) ∧
    records_gen [0x00, 0x2b, 0x00] = ([], some Err.truncatedHeader) :=
  ⟨records_gen_nil, by simp [records_gen]⟩

/-- C4 (corrected), counterexample: the record with header bytes
00 00 00 00 00 00 declares payload_length 0 and checksum 0; its (empty)
payload sums to 0 mod 65536, equal to the checksum field, yet the frame
reader emits nothing for it — the zero-length guard skips the record before
the checksum is ever compared, refuting the claimed "if and only if". -/
theorem C4_counterexample :
    records_gen [0, 0, 0, 0, 0, 0] = ([], none) ∧
    (List.take (0 * 256 + 0) ([] : List ℕ)).sum % 65536 = 0 * 256 + 0 :=
  ⟨by simp [records_gen], by simp⟩

/-- C4 (corrected), amended claim: for every record whose header declares a
NONZERO payload length, the frame reader emits the payload if and only if the
sum of its byte values modulo 65536 equals the header checksum field, and on
a mismatch the payload is discarded and decoding resumes at the next record
header (the byte position right after the payload); zero-length records are
skipped without emission regardless of their checksum field. -/
theorem C4_checksum_amended (b0 b1 b2 b3 b4 b5 : ℕ) (rest : List ℕ)
    (h : b0 * 256 + b1 ≠ 0) :
    records_gen (b0 :: b1 :: b2 :: b3 :: b4 :: b5 :: rest) =
      (if (rest.take (b0 * 256 + b1)).sum % 65536 = b4 * 256 + b5 then
        ((rest.take (b0 * 256 + b1)) :: (records_gen (rest.drop (b0 * 256 + b1))).1,
         (records_gen (rest.drop (b0 * 256 + b1))).2)
       else records_gen (rest.drop (b0 * 256 + b1))) := by
  rw [records_gen.eq_def]
  simp only [mask16]
  rw [if_neg h]

/-- Witness for C4_checksum_amended at a concrete one-record stream. -/
theorem C4_checksum_amended_witness :
    records_gen (0 :: 1 :: 0 :: 0 :: 0 :: 7 :: [7]) =
      (if ([7].take (0 * 256 + 1)).sum % 65536 = 0 * 256 + 7 then
        (([7].take (0 * 256 + 1)) :: (records_gen ([7].drop (0 * 256 + 1))).1,
         (records_gen ([7].drop (0 * 256 + 1))).2)
       else records_gen ([7].drop (0 * 256 + 1))) :=
  C4_checksum_amended 0 1 0 0 0 7 [7] (by norm_num)

/-- C5 (confirmed): for every 16-bit raw magnitude v, the rescale transform
produces exactly 10^-(v >> 14) * (v & 0x3FFF), i.e. the mantissa v mod 2^14
divided by ten to the exponent v div 2^14; the exponent lies in 0-3 and the
mantissa in 0-16383; in particular 0x4064 rescales to 10. -/
theorem C5_rescale_law :
    (∀ v : ℕ, v ≤ 65535 →
      rescaleQ v = ((v % 16384 : ℕ) : ℚ) / 10 ^ (v / 16384) ∧
      v / 16384 ≤ 3 ∧ v % 16384 ≤ 16383) ∧
    rescaleQ 0x4064 = 10 := by
  constructor
  · intro v hv
    refine ⟨?_, by omega, by omega⟩
    rw [rescaleQ, Nat.shiftRight_eq_div_pow,
        show (0x3fff : ℕ) = 2 ^ 14 - 1 by norm_num, Nat.and_pow_two_sub_one_eq_mod]
    rw [zpow_neg, zpow_natCast]
    rw [show (2 : ℕ) ^ 14 = 16384 by norm_num]
    rw [inv_mul_eq_div]
  · exact rescale_4064

/-- Witness for C5_rescale_law at v = 0x4064. -/
theorem C5_rescale_law_witness :
    rescaleQ 0x4064 = ((0x4064 % 16384 : ℕ) : ℚ) / 10 ^ (0x4064 / 16384) ∧
    0x4064 / 16384 ≤ 3 ∧ 0x4064 % 16384 ≤ 16383 :=
  C5_rescale_law.1 0x4064 (by norm_num)

/-- C7 (code_bug): the claim (and the source's own format notes) say that a
version-1 packed 16-bit field splits its top bit off as the pass flag and
rescales the low 15 bits, agreeing with the version-2 separate pass byte.
The code does not: SSSEarthResistanceTest.fixup feeds the full 16-bit value
0x8064 into rescale, so the set pass bit becomes part of the power-of-ten
exponent (10^-2 * 100 = 1), no pass field exists in the v1 mapping at all,
and the corresponding v2 sub-record (pass byte 1, magnitude 0x0064) decodes
to the quite different pair (pass = true, resistance = 100). -/
theorem C7_v1_pass_bit_not_split :
    unpack SSSEarthResistanceTest [0x80, 0x64] = .ok [("resistance", Value.rat 1)] ∧
    getK [("resistance", Value.rat 1)] "pass" = none ∧
    unpack SSSEarthResistanceTestv2 [0, 1, 0x00, 0x64] =
      .ok [("current", .nat 0), ("pass", .bool true), ("resistance", .rat 100)] := by
  refine ⟨?_, by simp [getK], ?_⟩
  · rw [unpack_SSSEarthResistanceTest]
    rw [show beNat [0x80, 0x64] = 0x8064 by rw [beNat]; norm_num, rescale_8064]
  · rw [unpack_SSSEarthResistanceTestv2]
    rw [show beNat [0x00, 0x64] = 0x64 by rw [beNat]; norm_num, rescale_0064]
    norm_num

/-- C9 (confirmed): for both the version-1 and the version-2 continuity
sub-record, a rescaled resistance of exactly zero is exposed as the symbolic
"(no result)" value, and every nonzero rescaled resistance is exposed as the
unchanged numeric value. -/
theorem C9_continuity_sentinel (p b0 b1 : ℕ) :
    unpack SSSContinuityTest [b0, b1] =
      .ok [("resistance",
        if rescaleQ (beNat [b0, b1]) = 0 then Value.noResult
        else .rat (rescaleQ (beNat [b0, b1])))] ∧
    unpack SSSContinuityTestv2 [p, b0, b1] =
      .ok [("pass", .bool (p == 1)),
           ("resistance",
            if rescaleQ (beNat [b0, b1]) = 0 then Value.noResult
            else .rat (rescaleQ (beNat [b0, b1])))] :=
  ⟨unpack_SSSContinuityTest b0 b1, unpack_SSSContinuityTestv2 p b0 b1⟩

/-- C10 (confirmed): the two boolean-normalization paths disagree.  For the
version-2 earth-resistance, current/leakage, earth-insulation and continuity
sub-records the exposed pass flag is `raw == 1` (so raw bytes 2-255 map to
false), while for the version-2 load/leakage sub-record it is `raw ≠ 0`; at
raw byte 2 the two paths produce opposite flags. -/
theorem C10_pass_flag_disagreement (c p b0 b1 l0 l1 d0 d1 : ℕ) :
    (unpack SSSEarthResistanceTestv2 [c, p, b0, b1]).map (fun fs => getK fs "pass") =
      .ok (some (.bool (p == 1))) ∧
    (unpack SSSCurrentTestv2 [p, b0, b1]).map (fun fs => getK fs "pass") =
      .ok (some (.bool (p == 1))) ∧
    (unpack SSSEarthInsulationTestv2 [p, b0, b1]).map (fun fs => getK fs "pass") =
      .ok (some (.bool (p == 1))) ∧
    (unpack SSSContinuityTestv2 [p, b0, b1]).map (fun fs => getK fs "pass") =
      .ok (some (.bool (p == 1))) ∧
    (unpack SSSPowerLeakTestv2 [p, l0, l1, d0, d1]).map (fun fs => getK fs "pass") =
      .ok (some (.bool (decide (p ≠ 0)))) ∧
    ((2 : ℕ) == 1) = false ∧ (decide ((2 : ℕ) ≠ 0)) = true := by
  refine ⟨?_, ?_, ?_, ?_, ?_, by decide, by decide⟩
  · rw [unpack_SSSEarthResistanceTestv2]
    rfl
  · rw [unpack_SSSCurrentTestv2]
    rfl
  · rw [unpack_SSSEarthInsulationTestv2]
    rfl
  · rw [unpack_SSSContinuityTestv2]
    rfl
  · rw [unpack_SSSPowerLeakTestv2]
    rfl

/-- C1 (corrected), counterexample: streamC1 contains a 0x11 version-2 marker
in its first record, yet the 0xF2 sub-record of the SECOND record is decoded
with the version-1 single-field schema (one row, field mapping
resistance = 10), because parse_record rebuilds `tests = TESTS_VERSION_1`
afresh for every record.  Had the merged version-2 table stayed active as the
claim requires, the 0xF2 sub-record would resolve to
SSSEarthResistanceTestv2, whose 4-byte schema cannot decode the 3 remaining
payload bytes (struct.error), so the claimed stream-wide upgrade is refuted
at this input. -/
theorem C1_counterexample :
    parse_sss initState streamC1 =
      ([⟨1, none, 0x11, "Visual Pass v2 (11)", visualFields⟩,
        ⟨2, some 1, 0xf2, "Earth Resistance (F2)", [("resistance", .rat 10)]⟩],
       ⟨2, [0, 1, 2, 3], [0, 0, 0, 0, 0, 0]⟩, none) ∧
    mergedTests 0xf2 = some ("Earth Resistance v2 (F2)", SSSEarthResistanceTestv2) ∧
    unpack SSSEarthResistanceTestv2
        (List.take (requiredLength SSSEarthResistanceTestv2) [0x40, 0x64, 0xff]) =
      .error .layoutError :=
  ⟨parse_sss_streamC1, rfl, rfl⟩

/-- C1 (corrected), amended claim: the version upgrade is one-way and merged
(version-2 entries overriding version-1 entries) only WITHIN a single record:
updating an already-updated table changes nothing, and after a 0x11/0x12 code
the rest of that record is decoded exactly as if the merged table had been
active from the marker on; but the walker restarts every record from the
version-1 table, so the upgrade does not survive a record boundary. -/
theorem C1_upgrade_record_local (tests : ℕ → Option (String × TestClass)) (rid : ℕ)
    (st : GState) (t : ℕ) (rest payload : List ℕ) (h : t = 0x11 ∨ t = 0x12) :
    updateV2 (updateV2 tests) = updateV2 tests ∧
    parse_record rid st payload = parse_record_go TESTS_VERSION_1 1 rid st payload ∧
    parse_record_go TESTS_VERSION_1 1 rid st (t :: rest) =
      parse_record_go mergedTests 2 rid st (t :: rest) := by
  refine ⟨?_, rfl, ?_⟩
  · funext c
    cases hc : TESTS_VERSION_2 c <;> simp [updateV2, hc]
  · rw [parse_record_go.eq_def]
    conv_rhs => rw [parse_record_go.eq_def]
    rcases h with h | h <;> subst h <;> norm_num [mergedTests]

/-- Witness for C1_upgrade_record_local at t = 0x11. -/
theorem C1_upgrade_record_local_witness :
    parse_record_go TESTS_VERSION_1 1 1 initState (0x11 :: []) =
      parse_record_go mergedTests 2 1 initState (0x11 :: []) :=
  (C1_upgrade_record_local TESTS_VERSION_1 1 initState 0x11 [] [] (Or.inl rfl)).2.2

/-- C2 (corrected), counterexample: decoding the same one-record stream twice
in succession (the global counters persisting, as the module-level function
attributes do across calls in one process) yields DIFFERENT output sequences:
the single measurement row carries test id 1 in the first run but test id 2
in the second, because parse_record.test_id is process-global state, not
state of a per-stream pipeline instance. -/
theorem C2_counterexample :
    (parse_sss initState streamS0).1 =
      [⟨1, some 1, 0xf0, "Overall Pass (F0)", []⟩] ∧
    (parse_sss (parse_sss initState streamS0).2.1 streamS0).1 =
      [⟨1, some 2, 0xf0, "Overall Pass (F0)", []⟩] ∧
    (parse_sss initState streamS0).1 ≠
      (parse_sss (parse_sss initState streamS0).2.1 streamS0).1 := by
  refine ⟨?_, ?_, ?_⟩ <;> simp [parse_sss_streamS0, initState]

/-- C6 (corrected), counterexample: streamC6 holds two checksum-valid records;
the first record's leading sub-record has the unknown type code 0x03.  The
resulting KeyError does abort the current record, but it also propagates out
of parse_record and parse_sss (main catches only SSSSyntaxError), so the
perfectly valid second record — which decoded on its own would produce an
overall-pass row — is never decoded: the pipeline output is empty.  This
refutes the claim that decoding continues with subsequent records. -/
theorem C6_counterexample :
    records_gen streamC6 = ([[0x03, 0xff], [0xf0, 0xff]], none) ∧
    parse_sss initState streamC6 = ([], initState, some (.unknownType 3)) ∧
    (parse_record 1 initState [0xf0, 0xff]).1 =
      [⟨1, some 1, 0xf0, "Overall Pass (F0)", []⟩] := by
  refine ⟨records_gen_streamC6, parse_sss_streamC6, ?_⟩
  rw [walker_payloadF0]
  simp [initState]

/-- The measurement-bearing sub-record kinds of the specification: type 0x10
and the range 0xF0-0xFA. -/
def isMeasurementType (t : ℕ) : Bool := decide (t = 0x10 ∨ (0xf0 ≤ t ∧ t ≤ 0xfa))

lemma report_record_spec (rid : ℕ) (l : String) (t : ℕ) (fs : Fields) (st : GState)
    (orow : Option Row) (st' : GState)
    (h : report_record rid l t fs st = .ok (orow, st')) :
    st'.testId = (if isMeasurementType t then st.testId + 1 else st.testId) ∧
    orow.toList.filterMap (·.testId) = (if isMeasurementType t then [st.testId] else []) ∧
    (orow.toList.filter (fun r => isMeasurementType r.testType)).length =
      (if isMeasurementType t then 1 else 0) ∧
    ∀ r ∈ orow.toList,
      r.recordId = rid ∧ r.testType = t ∧ (r.testId ≠ none ↔ isMeasurementType t = true) := by
  unfold report_record at h
  split_ifs at h with h1 h2 h3 h4 h5 h6 h7
  all_goals first
    | exact Except.noConfusion h
    | (simp only [Except.ok.injEq, Prod.mk.injEq] at h
       obtain ⟨rfl, rfl⟩ := h
       first
         | (have hf : isMeasurementType t = true := by
              simp only [isMeasurementType, decide_eq_true_eq]
              omega
            simp [hf])
         | (have hf : isMeasurementType t = false := by
              simp only [isMeasurementType, decide_eq_false_iff_not]
              omega
            simp [hf]))

lemma report_record_testId_only (rid : ℕ) (l : String) (t : ℕ) (fs : Fields)
    (st₁ st₂ : GState) (h : st₁.testId = st₂.testId) :
    (report_record rid l t fs st₁).map (fun os => (os.1, os.2.testId)) =
      (report_record rid l t fs st₂).map (fun os => (os.1, os.2.testId)) := by
  unfold report_record
  split_ifs <;> simp [Except.map, h]

lemma walker_testId_only_aux :
    ∀ (n : ℕ) (payload : List ℕ), payload.length ≤ n →
      ∀ (tests : ℕ → Option (String × TestClass)) (ver rid : ℕ) (st₁ st₂ : GState),
      st₁.testId = st₂.testId →
      (parse_record_go tests ver rid st₁ payload).1 =
        (parse_record_go tests ver rid st₂ payload).1 ∧
      (parse_record_go tests ver rid st₁ payload).2.1.testId =
        (parse_record_go tests ver rid st₂ payload).2.1.testId ∧
      (parse_record_go tests ver rid st₁ payload).2.2 =
        (parse_record_go tests ver rid st₂ payload).2.2 := by
  intro n
  induction n with
  | zero =>
    intro payload hlen
    rw [List.length_eq_zero.mp (Nat.le_zero.mp hlen)]
    intro tests ver rid st₁ st₂ h
    simp [parse_record_go, h]
  | succ n ih =>
    intro payload hlen tests ver rid st₁ st₂ h
    match payload with
    | [] => simp [parse_record_go, h]
    | t :: rest =>
      rw [parse_record_go.eq_def]
      rw [parse_record_go.eq_def]
      cases hl : (if ver = 1 ∧ (t = 0x11 ∨ t = 0x12)
          then (updateV2 tests, 2) else (tests, ver)).1 t with
      | none => simp [hl, h]
      | some lt =>
        simp only [hl]
        cases hu : unpack lt.2 (rest.take (requiredLength lt.2)) with
        | error e => simp [hu, h]
        | ok fs =>
          simp only [hu]
          have hr := report_record_testId_only rid lt.1 t fs st₁ st₂ h
          cases h1 : report_record rid lt.1 t fs st₁ with
          | error e =>
            cases h2 : report_record rid lt.1 t fs st₂ with
            | error e' =>
              rw [h1, h2] at hr
              simp only [Except.map] at hr
              cases hr
              simp [h]
            | ok o =>
              rw [h1, h2] at hr
              simp [Except.map] at hr
          | ok o1 =>
            cases h2 : report_record rid lt.1 t fs st₂ with
            | error e' =>
              rw [h1, h2] at hr
              simp [Except.map] at hr
            | ok o2 =>
              rw [h1, h2] at hr
              simp only [Except.map, Except.ok.injEq, Prod.mk.injEq] at hr
              obtain ⟨hrow, htid⟩ := hr
              by_cases ht : t = 0xff
              · simp [ht, hrow, htid]
              · simp only [if_neg ht]
                have hrec := ih (rest.drop (requiredLength lt.2))
                  (by simp [List.length_drop]; have := hlen; simp at this; omega)
                  (if ver = 1 ∧ (t = 0x11 ∨ t = 0x12)
                     then (updateV2 tests, 2) else (tests, ver)).1
                  (if ver = 1 ∧ (t = 0x11 ∨ t = 0x12)
                     then (updateV2 tests, 2) else (tests, ver)).2
                  rid o1.2 o2.2 htid
                simp [hrow, hrec.1, hrec.2.1, hrec.2.2]

lemma walker_testId_only (payload : List ℕ) (tests : ℕ → Option (String × TestClass))
    (ver rid : ℕ) (st₁ st₂ : GState) (h : st₁.testId = st₂.testId) :
    (parse_record_go tests ver rid st₁ payload).1 =
      (parse_record_go tests ver rid st₂ payload).1 ∧
    (parse_record_go tests ver rid st₁ payload).2.1.testId =
      (parse_record_go tests ver rid st₂ payload).2.1.testId ∧
    (parse_record_go tests ver rid st₁ payload).2.2 =
      (parse_record_go tests ver rid st₂ payload).2.2 :=
  walker_testId_only_aux payload.length payload le_rfl tests ver rid st₁ st₂ h

lemma sss_go_testId_only (ps : List (List ℕ)) :
    ∀ (rid : ℕ) (fe : Option Err) (st₁ st₂ : GState), st₁.testId = st₂.testId →
    (parse_sss_go rid st₁ fe ps).1 = (parse_sss_go rid st₂ fe ps).1 ∧
    (parse_sss_go rid st₁ fe ps).2.1.testId = (parse_sss_go rid st₂ fe ps).2.1.testId ∧
    (parse_sss_go rid st₁ fe ps).2.2 = (parse_sss_go rid st₂ fe ps).2.2 := by
  induction ps with
  | nil =>
    intro rid fe st₁ st₂ h
    simp [parse_sss_go, h]
  | cons p ps ih =>
    intro rid fe st₁ st₂ h
    have hw : (parse_record rid st₁ p).1 = (parse_record rid st₂ p).1 ∧
        (parse_record rid st₁ p).2.1.testId = (parse_record rid st₂ p).2.1.testId ∧
        (parse_record rid st₁ p).2.2 = (parse_record rid st₂ p).2.2 :=
      walker_testId_only p TESTS_VERSION_1 1 rid st₁ st₂ h
    rw [parse_sss_go, parse_sss_go]
    cases h1 : (parse_record rid st₁ p).2.2 with
    | some e =>
      have h2 : (parse_record rid st₂ p).2.2 = some e := by
        rw [← hw.2.2]
        exact h1
      simp [h1, h2, hw.1, hw.2.1]
    | none =>
      have h2 : (parse_record rid st₂ p).2.2 = none := by
        rw [← hw.2.2]
        exact h1
      have hrec := ih (rid + 1) fe (parse_record rid st₁ p).2.1 (parse_record rid st₂ p).2.1 hw.2.1
      simp [h1, h2, hw.1, hrec.1, hrec.2.1, hrec.2.2]

/-- C2 (corrected), amended claim: decoding a byte stream is deterministic up
to the initial value of the process-global test counter: two runs started
with equal test-counter values (whatever their user-notes/user-counts state)
produce identical output sequences, equal final test counters and identical
error outcomes.  Runs within one process do NOT satisfy this in sequence,
because the counter persists and differs at the start of the second run; only
separately started processes (fresh initState) are truly independent. -/
theorem C2_determinism_amended (stream : List ℕ) (st₁ st₂ : GState)
    (h : st₁.testId = st₂.testId) :
    (parse_sss st₁ stream).1 = (parse_sss st₂ stream).1 ∧
    (parse_sss st₁ stream).2.1.testId = (parse_sss st₂ stream).2.1.testId ∧
    (parse_sss st₁ stream).2.2 = (parse_sss st₂ stream).2.2 := by
  rw [parse_sss, parse_sss]
  exact sss_go_testId_only (records_gen stream).1 1 (records_gen stream).2 st₁ st₂ h

theorem C2_determinism_amended_witness :
    (parse_sss initState streamS0).1 =
      (parse_sss ⟨1, [3, 2, 1, 0], [9, 9, 9, 9, 9, 9]⟩ streamS0).1 ∧
    (parse_sss initState streamS0).2.1.testId =
      (parse_sss ⟨1, [3, 2, 1, 0], [9, 9, 9, 9, 9, 9]⟩ streamS0).2.1.testId ∧
    (parse_sss initState streamS0).2.2 =
      (parse_sss ⟨1, [3, 2, 1, 0], [9, 9, 9, 9, 9, 9]⟩ streamS0).2.2 :=
  C2_determinism_amended streamS0 initState ⟨1, [3, 2, 1, 0], [9, 9, 9, 9, 9, 9]⟩ rfl

/-- C6 (corrected), amended claim: a sub-record whose type code is absent
from the active registry makes the walker fail with the unknown-type error,
aborting the remaining sub-records of the current record — AND the error
propagates out of the per-record loop, so the remaining (even already
validated) records of the stream are not decoded either: the record loop
stops at the first failing record. -/
theorem C6_unknown_aborts_stream (tests : ℕ → Option (String × TestClass)) (ver rid : ℕ)
    (st : GState) (t : ℕ) (rest p : List ℕ) (ps : List (List ℕ)) (fe : Option Err) (e : Err)
    (h1 : (if ver = 1 ∧ (t = 0x11 ∨ t = 0x12) then updateV2 tests else tests) t = none)
    (h2 : (parse_record rid st p).2.2 = some e) :
    parse_record_go tests ver rid st (t :: rest) = ([], st, some (.unknownType t)) ∧
    parse_sss_go rid st fe (p :: ps) =
      ((parse_record rid st p).1, (parse_record rid st p).2.1, some e) := by
  constructor
  · rw [parse_record_go.eq_def]
    by_cases hc : ver = 1 ∧ (t = 0x11 ∨ t = 0x12)
    · rw [if_pos hc] at h1
      simp [if_pos hc, h1]
    · rw [if_neg hc] at h1
      simp [if_neg hc, h1]
  · rw [parse_sss_go]
    simp [h2]

/-- Witness for C6_unknown_aborts_stream at the unknown code 0x03. -/
theorem C6_unknown_aborts_stream_witness :
    parse_record_go TESTS_VERSION_1 1 1 initState (0x03 :: [0xff]) =
      ([], initState, some (.unknownType 0x03)) ∧
    parse_sss_go 1 initState none ([0x03, 0xff] :: [[0xf0, 0xff]]) =
      ((parse_record 1 initState [0x03, 0xff]).1, (parse_record 1 initState [0x03, 0xff]).2.1,
       some (.unknownType 0x03)) :=
  C6_unknown_aborts_stream TESTS_VERSION_1 1 1 initState 0x03 [0xff] [0x03, 0xff]
    [[0xf0, 0xff]] none (.unknownType 0x03) rfl (by rw [walker_payloadU])

lemma walker_counters_aux :
    ∀ (n : ℕ) (payload : List ℕ), payload.length ≤ n →
    ∀ (tests : ℕ → Option (String × TestClass)) (ver rid : ℕ) (st : GState),
      (parse_record_go tests ver rid st payload).2.1.testId =
        st.testId + ((parse_record_go tests ver rid st payload).1.filter
          (fun r => isMeasurementType r.testType)).length ∧
      (parse_record_go tests ver rid st payload).1.filterMap (·.testId) =
        List.range' st.testId ((parse_record_go tests ver rid st payload).1.filter
          (fun r => isMeasurementType r.testType)).length ∧
      ∀ r ∈ (parse_record_go tests ver rid st payload).1,
        r.recordId = rid ∧ (r.testId ≠ none ↔ isMeasurementType r.testType = true) := by
  intro n
  induction n with
  | zero =>
    intro payload hlen
    rw [List.length_eq_zero.mp (Nat.le_zero.mp hlen)]
    intro tests ver rid st
    simp [parse_record_go]
  | succ n ih =>
    intro payload hlen tests ver rid st
    match payload with
    | [] => simp [parse_record_go]
    | t :: rest =>
      rw [parse_record_go.eq_def]
      cases hl : (if ver = 1 ∧ (t = 0x11 ∨ t = 0x12)
          then (updateV2 tests, 2) else (tests, ver)).1 t with
      | none => simp [hl]
      | some lt =>
        simp only [hl]
        cases hu : unpack lt.2 (rest.take (requiredLength lt.2)) with
        | error e => simp [hu]
        | ok fs =>
          simp only [hu]
          cases h1 : report_record rid lt.1 t fs st with
          | error e => simp [h1]
          | ok ost =>
            simp only [h1]
            obtain ⟨hid, hmap, hcnt, hrow⟩ :=
              report_record_spec rid lt.1 t fs st ost.1 ost.2 (by rw [h1])
            by_cases ht : t = 0xff
            · rw [if_pos ht]
              refine ⟨?_, ?_, ?_⟩
              · rw [hid]
                cases hm : isMeasurementType t <;> simp_all
              · rw [hmap, hcnt]
                cases hm : isMeasurementType t <;> simp [List.range'_succ]
              · intro r hr
                obtain ⟨ha, hb, hc⟩ := hrow r hr
                exact ⟨ha, by rw [hb]; exact hc⟩
            · rw [if_neg ht]
              have hrec := ih (rest.drop (requiredLength lt.2))
                (by simp only [List.length_drop]
                    have := hlen
                    simp only [List.length_cons] at this
                    omega)
                (if ver = 1 ∧ (t = 0x11 ∨ t = 0x12)
                   then (updateV2 tests, 2) else (tests, ver)).1
                (if ver = 1 ∧ (t = 0x11 ∨ t = 0x12)
                   then (updateV2 tests, 2) else (tests, ver)).2
                rid ost.2
              obtain ⟨rid1, rmap1, rrow1⟩ := hrec
              refine ⟨?_, ?_, ?_⟩
              · simp only [List.filter_append, List.length_append]
                rw [rid1, hid, hcnt]
                cases hm : isMeasurementType t <;> (simp; try omega)
              · simp only [List.filterMap_append, List.filter_append, List.length_append]
                rw [rmap1, hmap, hcnt, hid]
                cases hm : isMeasurementType t
                · simp
                · simp only [if_true, List.singleton_append]
                  rw [Nat.add_comm 1, List.range'_succ]
              · intro r hr
                rcases List.mem_append.mp hr with hr1 | hr2
                · obtain ⟨ha, hb, hc⟩ := hrow r hr1
                  exact ⟨ha, by rw [hb]; exact hc⟩
                · exact rrow1 r hr2

lemma walker_counters (payload : List ℕ) (rid : ℕ) (st : GState) :
    (parse_record rid st payload).2.1.testId =
      st.testId + ((parse_record rid st payload).1.filter
        (fun r => isMeasurementType r.testType)).length ∧
    (parse_record rid st payload).1.filterMap (·.testId) =
      List.range' st.testId ((parse_record rid st payload).1.filter
        (fun r => isMeasurementType r.testType)).length ∧
    ∀ r ∈ (parse_record rid st payload).1,
      r.recordId = rid ∧ (r.testId ≠ none ↔ isMeasurementType r.testType = true) :=
  walker_counters_aux payload.length payload le_rfl TESTS_VERSION_1 1 rid st

lemma pairwise_le_const (l : List ℕ) (c : ℕ) (h : ∀ x ∈ l, x = c) :
    l.Pairwise (· ≤ ·) := by
  induction l with
  | nil => simp
  | cons a l ih =>
    simp only [List.pairwise_cons]
    refine ⟨fun b hb => ?_, ih (fun x hx => h x (by simp [hx]))⟩
    rw [h a (by simp), h b (by simp [hb])]

lemma range'_append_one (s m n : ℕ) :
    List.range' s m ++ List.range' (s + m) n = List.range' s (m + n) := by
  have := List.range'_append s m n 1
  rw [one_mul] at this
  rw [this, Nat.add_comm n m]

lemma sss_go_counters (ps : List (List ℕ)) :
    ∀ (rid : ℕ) (st : GState) (fe : Option Err),
    (parse_sss_go rid st fe ps).2.1.testId =
      st.testId + ((parse_sss_go rid st fe ps).1.filter
        (fun r => isMeasurementType r.testType)).length ∧
    (parse_sss_go rid st fe ps).1.filterMap (·.testId) =
      List.range' st.testId ((parse_sss_go rid st fe ps).1.filter
        (fun r => isMeasurementType r.testType)).length ∧
    (∀ r ∈ (parse_sss_go rid st fe ps).1,
      rid ≤ r.recordId ∧ (r.testId ≠ none ↔ isMeasurementType r.testType = true)) ∧
    List.Pairwise (· ≤ ·) ((parse_sss_go rid st fe ps).1.map (·.recordId)) := by
  induction ps with
  | nil =>
    intro rid st fe
    simp [parse_sss_go]
  | cons p ps ih =>
    intro rid st fe
    obtain ⟨hw1, hw2, hw3⟩ := walker_counters p rid st
    rw [parse_sss_go]
    cases h1 : (parse_record rid st p).2.2 with
    | some e =>
      simp only [h1]
      refine ⟨hw1, hw2, ?_, ?_⟩
      · intro r hr
        obtain ⟨ha, hb⟩ := hw3 r hr
        exact ⟨le_of_eq ha.symm, hb⟩
      · refine pairwise_le_const _ rid (fun x hx => ?_)
        obtain ⟨r, hr, rfl⟩ := List.mem_map.mp hx
        exact (hw3 r hr).1
    | none =>
      simp only [h1]
      obtain ⟨ih1, ih2, ih3, ih4⟩ := ih (rid + 1) (parse_record rid st p).2.1 fe
      refine ⟨?_, ?_, ?_, ?_⟩
      · simp only [List.filter_append, List.length_append]
        rw [ih1, hw1]
        omega
      · simp only [List.filterMap_append, List.filter_append, List.length_append]
        rw [ih2, hw2, hw1, range'_append_one]
      · intro r hr
        rcases List.mem_append.mp hr with hr1 | hr2
        · obtain ⟨ha, hb⟩ := hw3 r hr1
          exact ⟨le_of_eq ha.symm, hb⟩
        · obtain ⟨ha, hb⟩ := ih3 r hr2
          exact ⟨le_trans (Nat.le_succ rid) ha, hb⟩
      · simp only [List.map_append]
        rw [List.pairwise_append]
        refine ⟨?_, ih4, ?_⟩
        · refine pairwise_le_const _ rid (fun x hx => ?_)
          obtain ⟨r, hr, rfl⟩ := List.mem_map.mp hx
          exact (hw3 r hr).1
        · intro a ha b hb
          obtain ⟨r, hr, rfl⟩ := List.mem_map.mp ha
          obtain ⟨r', hr', rfl⟩ := List.mem_map.mp hb
          rw [(hw3 r hr).1]
          exact le_trans (Nat.le_succ rid) (ih3 r' hr').1

/-- C8 (confirmed): across the whole stream the decoder maintains the two
counters: the final test counter equals its initial value plus the number of
emitted rows whose type code is 0x10 or in 0xF0-0xFA, those rows receive the
consecutive ascending test identifiers starting at the initial counter value
(independent of record boundaries), a row carries a test identifier exactly
when its kind is measurement-bearing, record identifiers are positive and
nondecreasing along the output, and the record loop advances the record
identifier exactly once per successfully emitted record. -/
theorem C8_monotonic_counters (stream : List ℕ) (st : GState) :
    (parse_sss st stream).2.1.testId =
      st.testId + ((parse_sss st stream).1.filter
        (fun r => isMeasurementType r.testType)).length ∧
    (parse_sss st stream).1.filterMap (·.testId) =
      List.range' st.testId ((parse_sss st stream).1.filter
        (fun r => isMeasurementType r.testType)).length ∧
    (∀ r ∈ (parse_sss st stream).1,
      1 ≤ r.recordId ∧ (r.testId ≠ none ↔ isMeasurementType r.testType = true)) ∧
    List.Pairwise (· ≤ ·) ((parse_sss st stream).1.map (·.recordId)) ∧
    (∀ (rid : ℕ) (st' : GState) (fe : Option Err) (p : List ℕ) (ps : List (List ℕ)),
      parse_sss_go rid st' fe (p :: ps) =
        (match (parse_record rid st' p).2.2 with
         | some e => ((parse_record rid st' p).1, (parse_record rid st' p).2.1, some e)
         | none =>
           ((parse_record rid st' p).1 ++
              (parse_sss_go (rid + 1) (parse_record rid st' p).2.1 fe ps).1,
            (parse_sss_go (rid + 1) (parse_record rid st' p).2.1 fe ps).2.1,
            (parse_sss_go (rid + 1) (parse_record rid st' p).2.1 fe ps).2.2))) := by
  obtain ⟨h1, h2, h3, h4⟩ := sss_go_counters (records_gen stream).1 1 st (records_gen stream).2
  exact ⟨h1, h2, h3, h4, fun rid st' fe p ps => rfl⟩

/-- Witness for C8_monotonic_counters on the one-record overall-pass stream. -/
theorem C8_monotonic_counters_witness :
    (parse_sss initState streamS0).2.1.testId =
      initState.testId + ((parse_sss initState streamS0).1.filter
        (fun r => isMeasurementType r.testType)).length ∧
    ((⟨1, some 1, 0xf0, "Overall Pass (F0)", []⟩ : Row).testId ≠ none ↔
      isMeasurementType 0xf0 = true) :=
  ⟨(C8_monotonic_counters streamS0 initState).1,
   ((C8_monotonic_counters streamS0 initState).2.2.1
     ⟨1, some 1, 0xf0, "Overall Pass (F0)", []⟩
     (by rw [parse_sss_streamS0]; simp [initState])).2⟩
